import Mathlib

/- Verification of the gh-issue-exporter core: a shallow embedding of
`exporter.py` and `importer.py`, with the entity model of the (absent)
`gh_utils.py` modelled from the specification. -/

namespace GhIssueExporter

/-- JSON values, as needed by the wire protocol and the file formats. -/
inductive Json where
  | null
  | str (s : String)
  | num (n : Nat)
  | arr (elems : List Json)
  | obj (fields : List (String × Json))

/-- Modelled from the spec: the repository's `gh_utils.py` (holding the `Issue`
entity class) is not under src/. Per spec section 3 an `Issue` has a required
`title`, an optional `body`, a `state`, `labels`, and a remote-assigned
`number`; it is a value object, never mutated after construction. -/
structure Issue where
  title : String
  body : String
  state : String
  labels : List String
  number : Option Nat
  deriving DecidableEq

/-- Modelled from the spec: issue identity for diffing is the content key
(`title`, `body`), not the remote-assigned `number` (spec section 3). This is
the equality and hashing the missing `gh_utils.Issue` class must supply for the
importer's set difference. -/
def Issue.contentKey (i : Issue) : String × String := (i.title, i.body)

/-- Field lookup in a JSON mapping, as Python `dict.get`. -/
def jsonLookup (fields : List (String × Json)) (key : String) : Option Json :=
  match fields.find? (fun f => f.1 == key) with
  | some f => some f.2
  | none => none

/-- Modelled from the spec: `gh_utils.Issue.from_dict` is not under src/. It
builds an `Issue` from a wire JSON mapping (spec sections 3 and 6); a wire
value that is not a mapping with a string `title` is not an issue record and
fails. -/
def Issue.from_dict : Json → Except String Issue
  | .obj fields =>
    match jsonLookup fields "title" with
    | some (.str t) =>
      let b : String :=
        match jsonLookup fields "body" with
        | some (.str s) => s
        | _ => ""
      let st : String :=
        match jsonLookup fields "state" with
        | some (.str s) => s
        | _ => "open"
      let ls : List String :=
        match jsonLookup fields "labels" with
        | some (.arr xs) =>
          xs.filterMap (fun l => match l with | .str s => some s | _ => none)
        | _ => []
      let nb : Option Nat :=
        match jsonLookup fields "number" with
        | some (.num n) => some n
        | _ => none
      .ok ⟨t, b, st, ls, nb⟩
    | _ => .error "invalid issue record"
  | _ => .error "invalid issue record"

/-- Modelled from the spec: `gh_utils.Issue.to_dict`, the wire serialization
(title, body, state, labels, and the number when present). -/
def Issue.to_dict (i : Issue) : Json :=
  Json.obj
    ([("title", Json.str i.title), ("body", Json.str i.body),
      ("state", Json.str i.state),
      ("labels", Json.arr (i.labels.map Json.str))] ++
     (match i.number with
      | some n => [("number", Json.num n)]
      | none => []))

/-- Modelled from the spec: `gh_utils.py` (holding the `PullRequest` entity
class) is not under src/. Per spec section 3 it has the same shape as `Issue`
plus source and target branch refs, as a sibling type. -/
structure PullRequest where
  title : String
  body : String
  state : String
  number : Option Nat
  sourceBranch : String
  targetBranch : String
  deriving DecidableEq

/-- Modelled from the spec: `gh_utils.PullRequest.to_dict`, the wire
serialization of a pull request. -/
def PullRequest.to_dict (p : PullRequest) : Json :=
  Json.obj
    [("title", Json.str p.title), ("body", Json.str p.body),
     ("state", Json.str p.state), ("head", Json.str p.sourceBranch),
     ("base", Json.str p.targetBranch)]

/-- Does `sub` occur as a contiguous substring? Models Python
`s.find(sub) > -1`. -/
def containsSub (sub : List Char) : List Char → Bool
  | [] => sub.isPrefixOf ([] : List Char)
  | c :: rest => sub.isPrefixOf (c :: rest) || containsSub sub rest

/-- Characters before the first occurrence of `sep` (the whole list when `sep`
is absent). Models Python `s.split(sep)[0]` for a non-empty `sep`. -/
def takeUntilSub (sep : List Char) : List Char → List Char
  | [] => []
  | c :: rest => if sep.isPrefixOf (c :: rest) then [] else c :: takeUntilSub sep rest

/-- Split on a single character; models Python `s.split(sep)` for a
one-character separator. -/
def splitOnChar (sep : Char) : List Char → List (List Char)
  | [] => [[]]
  | c :: rest =>
    if c == sep then [] :: splitOnChar sep rest
    else
      match splitOnChar sep rest with
      | [] => [[c]]
      | chunk :: chunks => (c :: chunk) :: chunks

/-- Count occurrences of a character; models Python `s.count(c)`. -/
def countChar (c : Char) (s : String) : Nat :=
  (s.data.filter (fun d => d == c)).length

/-- Remove all trailing occurrences of `c`; models Python `s.rstrip(c)`. -/
def rstripChar (c : Char) (s : String) : String :=
  String.mk ((s.data.reverse.dropWhile (fun d => d == c)).reverse)

/-- Source constant `GH_BASE_URL` in `exporter.py`. -/
def GH_BASE_URL : String := "https://github.com/"

/-- Source constant `GH_BASE_API_URL` in `exporter.py`. -/
def GH_BASE_API_URL : String := "https://api.github.com"

/-- Source `get_owner_and_repo_from_gh_url`: strip a `?...` suffix and trailing
slashes, split on slash, return the last two segments. -/
def get_owner_and_repo_from_gh_url (url : String) : List String :=
  let url_no_params := rstripChar '/' (String.mk (takeUntilSub "?".data url.data))
  let parts := (splitOnChar '/' url_no_params.data).map String.mk
  parts.drop (parts.length - 2)

/-- Source `is_gh_url`: a prefix check plus a raw slash count between 4 and 5,
on the string as given (no stripping before counting). -/
def is_gh_url (url : String) : Bool :=
  GH_BASE_URL.data.isPrefixOf url.data
    && decide (4 ≤ countChar '/' url) && decide (countChar '/' url ≤ 5)

/-- Source `create_gh_api_issues_url`: the f-string
`{GH_BASE_API_URL}/repos/{owner}/{repo}/issues` written as concatenation. -/
def create_gh_api_issues_url (owner repo : String) : String :=
  String.mk (GH_BASE_API_URL.data ++ "/repos/".data ++ owner.data ++ "/".data ++
             repo.data ++ "/issues".data)

/-- Source `next_page_gh_api`: the result is empty unless the link header is
present, non-empty and mentions rel="next"; in that case it is the part of the
header before the first occurrence of the two characters greater-than,
semicolon, with every opening angle bracket removed. -/
def next_page_gh_api (link : Option String) : String :=
  match link with
  | none => ""
  | some next_link =>
    if next_link != "" && containsSub ("rel=\"next\"".data) next_link.data then
      String.mk ((takeUntilSub ">;".data next_link.data).filter (fun c => c != '<'))
    else ""

/-- Wire response as the fetch loop sees it: the parsed JSON body plus the
`link` header (absent when the header is missing). -/
structure ApiResponse where
  body : Json
  link : Option String

/-- Outcome of the paginated fetch: success, the LookupError raised on a
404-shaped body, the TypeError raised when the body is not a list of issue
records, or fuel exhaustion (the source loop has no bound of its own). -/
inductive FetchResult where
  | ok (issues : List Issue)
  | notFound
  | typeError
  | outOfFuel
  deriving DecidableEq

/-- Source inner `verify_response` of `get_gh_issues`: a mapping body whose
`status` field is the string "404". -/
def is404 (body : Json) : Bool :=
  match body with
  | .obj fields =>
    match jsonLookup fields "status" with
    | some (.str s) => s == "404"
    | _ => false
  | _ => false

/-- Python iteration over a JSON value: arrays yield their elements, mappings
yield their keys, strings yield their characters; other values are not
iterable (a TypeError). -/
def pyIterElems : Json → Option (List Json)
  | .arr xs => some xs
  | .obj fields => some (fields.map (fun f => Json.str f.1))
  | .str s => some (s.data.map (fun c => Json.str (String.mk [c])))
  | _ => none

/-- The comprehension building `Issue.from_dict` of each element, failing at
the first element that is not an issue record. -/
def parseIssues : List Json → Except String (List Issue)
  | [] => .ok []
  | x :: xs =>
    match Issue.from_dict x, parseIssues xs with
    | .ok i, .ok rest => .ok (i :: rest)
    | .error e, _ => .error e
    | _, .error e => .error e

/-- Source `get_gh_issues` while-loop, with the network abstracted as a
function from URL to response, explicit fuel (the source loop has no bound),
and a trace of the URLs requested so far. -/
def get_gh_issues_go (server : String → ApiResponse) :
    Nat → String → List Issue → List String → List String × FetchResult
  | 0, url, acc, reqs =>
    if url = "" then (reqs, .ok acc) else (reqs, .outOfFuel)
  | fuel + 1, url, acc, reqs =>
    if url = "" then (reqs, .ok acc)
    else
      let res := server url
      let reqs2 := reqs ++ [url]
      if is404 res.body then (reqs2, .notFound)
      else
        match pyIterElems res.body with
        | none => (reqs2, .typeError)
        | some elems =>
          match parseIssues elems with
          | .error _ => (reqs2, .typeError)
          | .ok newIssues =>
            get_gh_issues_go server fuel (next_page_gh_api res.link)
              (acc ++ newIssues) reqs2

/-- Source `get_gh_issues`: run the loop from the issues collection URL. -/
def get_gh_issues (server : String → ApiResponse) (fuel : Nat)
    (owner repo : String) : List String × FetchResult :=
  get_gh_issues_go server fuel (create_gh_api_issues_url owner repo) [] []

/-- The `export` dict built by `run_export`: each key present or absent. -/
structure ExportDict where
  issues : Option (List Issue)
  prs : Option (List PullRequest)

/-- The serialized document written by `write_issues_to_file`. -/
structure SerializedBundle where
  issues : List Json
  prs : List Json

/-- Outcome of `run_export`: the ValueError on a bad URL, the skip-with-warning
branch, the TypeError raised by iterating an absent key (before any file is
opened), or a successful write of the serialized bundle. -/
inductive ExportOutcome where
  | invalidURL
  | skippedWithWarning
  | typeErrorCrash
  | wrote (bundle : SerializedBundle)

/-- Source `write_issues_to_file`. The guard `if not export` is the Python
truthiness of the dict, false whenever any key is present; iterating
`export.get(k)` for an absent key iterates `None` and raises TypeError before
any file is opened. -/
def write_issues_to_file (ex : ExportDict) : ExportOutcome :=
  if ex.issues.isNone && ex.prs.isNone then .skippedWithWarning
  else
    match ex.issues, ex.prs with
    | some is, some ps => .wrote ⟨is.map Issue.to_dict, ps.map PullRequest.to_dict⟩
    | _, _ => .typeErrorCrash

/-- Source `run_export`, with the fetched collections passed in (the network is
abstracted); returns the output filename alongside the outcome. The filename
is Python `outfile or repo_name + ".json"`, so an empty outfile also falls
back to the default. -/
def run_export (repo_url : String) (export_prs : Bool) (outfile : Option String)
    (fetchedIssues : List Issue) (fetchedPrs : List PullRequest) :
    String × ExportOutcome :=
  if is_gh_url repo_url then
    let repo_name := (get_owner_and_repo_from_gh_url repo_url).getLastD ""
    let filename :=
      match outfile with
      | some f => if f = "" then repo_name ++ ".json" else f
      | none => repo_name ++ ".json"
    (filename,
     write_issues_to_file
       ⟨some fetchedIssues, if export_prs then some fetchedPrs else none⟩)
  else ("", .invalidURL)

/-- The section 4.1 rule exactly as the spec words it, for comparison with the
source `is_gh_url`: strip query parameters and one trailing slash, then
require the slash count of the trimmed string to be between 4 and 5. -/
def is_repository_url_spec (s : String) : Bool :=
  let noParams := takeUntilSub "?".data s.data
  let trimmed : List Char :=
    match noParams.getLast? with
    | some '/' => noParams.dropLast
    | _ => noParams
  GH_BASE_URL.data.isPrefixOf s.data
    && decide (4 ≤ countChar '/' (String.mk trimmed))
    && decide (countChar '/' (String.mk trimmed) ≤ 5)

/-- An HTTP response to a creation call: status code and (parsed) body. -/
structure HttpResponse where
  status : Nat
  body : String

/-- Source `import_issues_to_repo` with `verify_response` inlined: posts each
issue in turn; a response status of at least 300 raises HTTPError carrying the
response body and later posts are not issued. Returns the issues whose
creation calls were issued, and the error payload if any. -/
def import_issues_to_repo (respond : Issue → HttpResponse) :
    List Issue → List Issue × Option String
  | [] => ([], none)
  | i :: rest =>
    let res := respond i
    if 300 ≤ res.status then ([i], some res.body)
    else
      let r := import_issues_to_repo respond rest
      (i :: r.1, r.2)

/-- Source `load_issues_from_json`: build `Issue.from_dict` of each element of
the top-level parsed document, whatever Python iteration yields there. -/
def load_issues_from_json (doc : Json) : Except String (List Issue) :=
  match pyIterElems doc with
  | none => .error "document is not iterable"
  | some elems => parseIssues elems

/-- Source `import_issues` diff `set(local_issues) - set(remote_issues)` under
the modelled content identity: the set of content keys present locally but not
remotely, duplicates collapsed by the set construction. -/
def missing_issue_keys (localIssues remoteIssues : List Issue) :
    Finset (String × String) :=
  (localIssues.map Issue.contentKey).toFinset \
    (remoteIssues.map Issue.contentKey).toFinset

/-- One deterministic enumeration of the missing set, keeping the local-file
order and collapsing duplicates by content key (the Python set iterates in an
unspecified but fixed order within one run). -/
def missingList (localIssues remoteIssues : List Issue) : List Issue :=
  localIssues.foldl
    (fun acc i =>
      if (remoteIssues ++ acc).any (fun j => j.contentKey == i.contentKey) then acc
      else acc ++ [i]) []

/-- Observable effects of one `import_issues` run, in order. -/
inductive ImportEvent where
  | remoteFetch
  | fileLoad
  | httpPost (title : String)
  deriving DecidableEq

/-- Failure kinds of one `import_issues` run. -/
inductive ImportError where
  | invalidRepositoryURL
  | fetchFailed
  | invalidFileFormat
  | remoteWriteError (body : String)
  deriving DecidableEq

/-- Source `import_issues` at statement granularity: the URL check, then the
remote fetch (network calls), then the local file load, then the creation
calls for the missing issues. The trace records these effects in the order the
source performs them; `remoteRes` and `fileRes` are the results of the remote
fetch and of the local file parse. -/
def import_issues_run (repo_url : String)
    (remoteRes : Except String (List Issue))
    (fileRes : Except String (List Issue))
    (respond : Issue → HttpResponse) :
    List ImportEvent × Except ImportError Unit :=
  if is_gh_url repo_url then
    match remoteRes with
    | .error _ => ([.remoteFetch], .error .fetchFailed)
    | .ok remoteIssues =>
      match fileRes with
      | .error _ => ([.remoteFetch, .fileLoad], .error .invalidFileFormat)
      | .ok localIssues =>
        let r := import_issues_to_repo respond (missingList localIssues remoteIssues)
        ([.remoteFetch, .fileLoad] ++ r.1.map (fun i => ImportEvent.httpPost i.title),
         match r.2 with
         | some b => .error (.remoteWriteError b)
         | none => .ok ())
  else ([], .error .invalidRepositoryURL)

/-- The local issue titled A with body x from the spec's identity example. -/
def issueA : Issue := ⟨"A", "x", "open", [], none⟩

/-- The local issue titled B with body y from the spec's identity example. -/
def issueB : Issue := ⟨"B", "y", "open", [], none⟩

/-- The remote issue titled A with body x and remote number 1 from the spec's
identity example. -/
def issueA1 : Issue := ⟨"A", "x", "open", [], some 1⟩

/-- A sample issue for the export scenarios. -/
def sampleIssue : Issue := ⟨"t1", "b1", "open", [], some 7⟩

/-- A sample wire issue record. -/
def sampleIssueJson : Json :=
  Json.obj [("title", Json.str "t1"), ("body", Json.str "b1"), ("number", Json.num 3)]

/-- An export-bundle shaped document, as `write_issues_to_file` produces. -/
def bundleDoc : Json :=
  Json.obj [("issues", Json.arr [sampleIssueJson]), ("prs", Json.arr [])]

/-- Sample issues for the fail-fast import scenario. -/
def issueT1 : Issue := ⟨"t1", "b1", "open", [], none⟩

/-- Second sample issue, whose creation call will fail. -/
def issueT2 : Issue := ⟨"t2", "b2", "open", [], none⟩

/-- Third sample issue, whose creation call must never be issued. -/
def issueT3 : Issue := ⟨"t3", "b3", "open", [], none⟩

/-- A fake transport: status 422 for the issue titled t2, status 201 otherwise. -/
def respond422 : Issue → HttpResponse :=
  fun i => if i.title == "t2" then ⟨422, "Validation Failed"⟩ else ⟨201, "created"⟩

/-- A server that always answers with a 404-shaped mapping body. -/
def server404 : String → ApiResponse :=
  fun _ => ⟨Json.obj [("message", Json.str "Not Found"), ("status", Json.str "404")], none⟩

/-- A server whose every response is an empty page with no link header. -/
def serverEmpty : String → ApiResponse := fun _ => ⟨Json.arr [], none⟩

/-- A server serving one page holding one issue record, with no link header. -/
def serverOnePage : String → ApiResponse := fun _ => ⟨Json.arr [sampleIssueJson], none⟩

/-- The issues URL of the repository o/r. -/
def cyclicUrl : String := "https://api.github.com/repos/o/r/issues"

/-- A link header advertising `cyclicUrl` itself as the next page. -/
def cyclicLink : String := "<https://api.github.com/repos/o/r/issues>; rel=\"next\""

/-- A misbehaving server that always re-advertises the same URL as next. -/
def cyclicServer : String → ApiResponse := fun _ => ⟨Json.arr [], some cyclicLink⟩

/-- Helper: the fetch loop stops successfully once the current URL is empty,
whatever fuel remains. -/
theorem go_empty_url (server : String → ApiResponse) (fuel : Nat)
    (acc : List Issue) (reqs : List String) :
    get_gh_issues_go server fuel "" acc reqs = (reqs, .ok acc) := by
  cases fuel <;> simp [get_gh_issues_go]

/-- Helper: with no fuel left and a pending URL, the loop is still running. -/
theorem go_fuel_zero (server : String → ApiResponse) (url : String)
    (h : url ≠ "") (acc : List Issue) (reqs : List String) :
    get_gh_issues_go server 0 url acc reqs = (reqs, .outOfFuel) := by
  simp [get_gh_issues_go, h]

/-- Helper: a 404-shaped body halts the loop after the current request. -/
theorem go_404_halts (server : String → ApiResponse) (fuel : Nat) (url : String)
    (h : url ≠ "") (acc : List Issue) (reqs : List String)
    (h404 : is404 (server url).body = true) :
    get_gh_issues_go server (fuel + 1) url acc reqs = (reqs ++ [url], .notFound) := by
  simp [get_gh_issues_go, h, h404]

/-- Helper: an array body whose records all parse extends the accumulator in
order and follows the next-page link. -/
theorem go_arr_step (server : String → ApiResponse) (fuel : Nat) (url : String)
    (h : url ≠ "") (acc : List Issue) (reqs : List String) (records : List Json)
    (hbody : (server url).body = Json.arr records) (newIssues : List Issue)
    (hparse : parseIssues records = Except.ok newIssues) :
    get_gh_issues_go server (fuel + 1) url acc reqs
      = get_gh_issues_go server fuel (next_page_gh_api (server url).link)
          (acc ++ newIssues) (reqs ++ [url]) := by
  simp [get_gh_issues_go, h, hbody, is404, pyIterElems, hparse]

/-- Helper: the issues collection URL is never the empty string. -/
theorem create_url_ne_empty (owner repo : String) :
    create_gh_api_issues_url owner repo ≠ "" := by
  intro h
  have hd := congrArg String.data h
  simp [create_gh_api_issues_url] at hd

/-- Helper: the cyclic URL is non-empty. -/
theorem cyclicUrl_ne : cyclicUrl ≠ "" := by decide

/-- Helper: the cyclic link header points back to the cyclic URL. -/
theorem next_cyclic : next_page_gh_api (some cyclicLink) = cyclicUrl := by decide

/-- C1: the importer's missing set is the set difference of local and remote
issues under content identity (title and body), ignoring the remote number and
collapsing duplicates; on the spec's example it contains exactly the B issue. -/
theorem missing_is_content_diff :
    (∀ (localIssues remoteIssues : List Issue) (k : String × String),
        k ∈ missing_issue_keys localIssues remoteIssues ↔
          ((∃ i ∈ localIssues, Issue.contentKey i = k)
            ∧ ¬ ∃ j ∈ remoteIssues, Issue.contentKey j = k))
    ∧ missing_issue_keys [issueA, issueB] [issueA1] = {("B", "y")} := by
  constructor
  · intro localIssues remoteIssues k
    simp [missing_issue_keys]
  · decide

/-- C2: the source takes the URL of the first link segment (the part before
the first greater-than semicolon), not the one preceding the rel="next"
marker; with a rel="prev" segment first it returns the prev URL. A missing
header, or one without rel="next", still yields no next page. -/
theorem next_page_prev_segment_first :
    next_page_gh_api
        (some "<https://api.github.com/repositories/1/issues?page=1>; rel=\"prev\", <https://api.github.com/repositories/1/issues?page=3>; rel=\"next\"")
      = "https://api.github.com/repositories/1/issues?page=1"
    ∧ next_page_gh_api none = ""
    ∧ next_page_gh_api
        (some "<https://api.github.com/repositories/1/issues?page=2>; rel=\"last\"") = "" := by
  refine ⟨by decide, rfl, by decide⟩

/-- C3: with zero issues fetched and pull requests not requested, run_export
does not skip with a warning: the export dict holds the issues key, so its
Python truthiness defeats the emptiness guard, and iterating the absent prs
key raises TypeError before any file is opened (so nothing is written, but by
a crash, not a warning). -/
theorem run_export_empty_crashes :
    run_export "https://github.com/o/r" false none [] []
      = ("r.json", ExportOutcome.typeErrorCrash) := by rfl

/-- C4: with a non-empty issue list and pull requests not requested,
run_export does not complete: write_issues_to_file iterates the absent prs
key (None) and raises TypeError, so no bundle is serialized; only when PRs are
requested does it write, and then prs is an empty sequence, not null. -/
theorem run_export_no_prs_crashes :
    run_export "https://github.com/o/r" false none [sampleIssue] []
      = ("r.json", ExportOutcome.typeErrorCrash)
    ∧ run_export "https://github.com/o/r" true none [sampleIssue] []
      = ("r.json", ExportOutcome.wrote ⟨[sampleIssue.to_dict], []⟩) := by
  exact ⟨rfl, rfl⟩

/-- C5 counterexample: with a malformed local file the importer still performs
the remote fetch first; the trace opens with the network fetch and only then
surfaces InvalidFileFormat, so the failure is not surfaced before network
calls are made. -/
theorem import_invalid_file_after_fetch_cx :
    import_issues_run "https://github.com/o/r" (Except.ok []) (Except.error "not a list")
        (fun _ => ⟨201, "created"⟩)
      = ([ImportEvent.remoteFetch, ImportEvent.fileLoad],
         Except.error ImportError.invalidFileFormat)
    ∧ (import_issues_run "https://github.com/o/r" (Except.ok [])
        (Except.error "not a list") (fun _ => ⟨201, "created"⟩)).1.head?
      = some ImportEvent.remoteFetch := by
  exact ⟨rfl, rfl⟩

/-- C5 amended: the InvalidFileFormat failure is surfaced after the remote
issue fetch, which the importer performs first, but before any creation call
is issued. -/
theorem import_invalid_file_ordering :
    ∀ (remoteIssues : List Issue) (respond : Issue → HttpResponse) (e : String),
      import_issues_run "https://github.com/o/r" (Except.ok remoteIssues)
          (Except.error e) respond
        = ([ImportEvent.remoteFetch, ImportEvent.fileLoad],
           Except.error ImportError.invalidFileFormat) := by
  intro remoteIssues respond e
  rfl

/-- C6: if the creation call at position i is the first to return a status of
at least 300, the run fails carrying that response body, the calls up to and
including position i were issued, and no later call is issued. -/
theorem import_fail_fast (respond : Issue → HttpResponse) (issues : List Issue)
    (i : Nat) (hi : i < issues.length)
    (hbefore : ∀ j : Fin issues.length, (j : Nat) < i →
      (respond (issues.get j)).status < 300)
    (hfail : 300 ≤ (respond (issues.get ⟨i, hi⟩)).status) :
    import_issues_to_repo respond issues
      = (issues.take (i + 1), some (respond (issues.get ⟨i, hi⟩)).body) := by
  induction issues generalizing i with
  | nil => exact absurd hi (Nat.not_lt_zero i)
  | cons a rest ih =>
    cases i with
    | zero =>
      have hfa : 300 ≤ (respond a).status := hfail
      simp [import_issues_to_repo, hfa, List.take]
    | succ k =>
      have h0 : (respond a).status < 300 :=
        hbefore ⟨0, Nat.succ_pos rest.length⟩ (Nat.succ_pos k)
      have hnle : ¬ 300 ≤ (respond a).status := Nat.not_le.mpr h0
      have hik : k < rest.length := Nat.lt_of_succ_lt_succ hi
      have ihres := ih k hik
        (fun j hj => hbefore ⟨j.val + 1, Nat.succ_lt_succ j.isLt⟩ (Nat.succ_lt_succ hj))
        hfail
      simp [import_issues_to_repo, hnle, ihres, List.take]

/-- C6 witness: the second of three creation calls returns 422; the run fails
carrying the 422 response body, the first two calls were issued and the third
never is. -/
theorem import_fail_fast_witness :
    import_issues_to_repo respond422 [issueT1, issueT2, issueT3]
      = ([issueT1, issueT2], some "Validation Failed") := by
  exact import_fail_fast respond422 [issueT1, issueT2, issueT3] 1 (by decide)
    (by decide) (by decide)

/-- C7: a 404-shaped mapping body halts the fetch with RepositoryNotFound and
no request beyond the current one is issued; an array body has its records
parsed and appended in order before the loop follows the next-page link; and
an empty first page yields the empty sequence, not an error. -/
theorem fetch_pages_behaviour :
    (∀ (server : String → ApiResponse) (fuel : Nat) (url : String)
        (acc : List Issue) (reqs : List String),
        url ≠ "" → is404 (server url).body = true →
        get_gh_issues_go server (fuel + 1) url acc reqs = (reqs ++ [url], .notFound))
    ∧ (∀ (server : String → ApiResponse) (fuel : Nat) (url : String)
        (acc newIssues : List Issue) (reqs : List String) (records : List Json),
        url ≠ "" → (server url).body = Json.arr records →
        parseIssues records = Except.ok newIssues →
        get_gh_issues_go server (fuel + 1) url acc reqs
          = get_gh_issues_go server fuel (next_page_gh_api (server url).link)
              (acc ++ newIssues) (reqs ++ [url]))
    ∧ (∀ (server : String → ApiResponse) (fuel : Nat) (owner repo : String),
        server (create_gh_api_issues_url owner repo) = ⟨Json.arr [], none⟩ →
        get_gh_issues server (fuel + 1) owner repo
          = ([create_gh_api_issues_url owner repo], .ok [])) := by
  refine ⟨?_, ?_, ?_⟩
  · intro server fuel url acc reqs hurl h404
    exact go_404_halts server fuel url hurl acc reqs h404
  · intro server fuel url acc newIssues reqs records hurl hbody hparse
    exact go_arr_step server fuel url hurl acc reqs records hbody newIssues hparse
  · intro server fuel owner repo hserver
    have hne := create_url_ne_empty owner repo
    unfold get_gh_issues
    rw [go_arr_step server fuel _ hne [] [] [] (by rw [hserver]) [] rfl]
    rw [hserver]
    simp [next_page_gh_api, go_empty_url]

/-- C7 witness: the three clauses at concrete servers — a 404 server halts
after one request, a one-record page is parsed and appended before following
the (absent) link, and an empty first page returns the empty list. -/
theorem fetch_pages_behaviour_witness :
    get_gh_issues_go server404 1 "https://api.github.com/repos/o/r/issues" [] []
      = (["https://api.github.com/repos/o/r/issues"], .notFound)
    ∧ get_gh_issues_go serverOnePage 1 "u1" [] []
      = get_gh_issues_go serverOnePage 0 (next_page_gh_api (serverOnePage "u1").link)
          ([] ++ [⟨"t1", "b1", "open", [], some 3⟩]) ([] ++ ["u1"])
    ∧ get_gh_issues serverEmpty 1 "o" "r" = ([create_gh_api_issues_url "o" "r"], .ok []) := by
  exact ⟨fetch_pages_behaviour.1 server404 0 _ [] [] (by decide) (by decide),
         fetch_pages_behaviour.2.1 serverOnePage 0 "u1" [] [⟨"t1", "b1", "open", [], some 3⟩]
           [] [sampleIssueJson] (by decide) rfl rfl,
         fetch_pages_behaviour.2.2 serverEmpty 0 "o" "r" rfl⟩

/-- C8 counterexample: the loop has no repeated-URL guard: against a server
that re-advertises the URL just fetched, three requests to the same URL are
issued and the loop is still running when the fuel bound cuts it off, rather
than the repeat being treated as terminal. -/
theorem fetch_cycle_not_terminal :
    get_gh_issues cyclicServer 3 "o" "r"
      = ([cyclicUrl, cyclicUrl, cyclicUrl], FetchResult.outOfFuel) := by decide

/-- C8 amended: against the cyclic server the fetch loop never terminates:
for every fuel bound it is still running, having re-requested the same URL at
every step; only a server that stops advertising a next page ends the loop. -/
theorem fetch_cycle_diverges :
    ∀ (fuel : Nat) (acc : List Issue) (reqs : List String),
      get_gh_issues_go cyclicServer fuel cyclicUrl acc reqs
        = (reqs ++ List.replicate fuel cyclicUrl, FetchResult.outOfFuel) := by
  intro fuel
  induction fuel with
  | zero =>
    intro acc reqs
    rw [go_fuel_zero cyclicServer cyclicUrl cyclicUrl_ne acc reqs]
    simp
  | succ n ih =>
    intro acc reqs
    rw [go_arr_step cyclicServer n cyclicUrl cyclicUrl_ne acc reqs [] rfl [] rfl]
    rw [show (cyclicServer cyclicUrl).link = some cyclicLink from rfl, next_cyclic]
    rw [ih]
    simp [List.replicate_succ]

/-- C9: the reader iterates the top level of the parsed document: a bare JSON
array yields its issue records, but a bundle object yields its keys, each of
which fails to parse as an issue record, so the bundle shape written by the
exporter is rejected instead of returning the contained issues. -/
theorem load_issues_bundle_rejected :
    load_issues_from_json (Json.arr [sampleIssueJson])
      = Except.ok [⟨"t1", "b1", "open", [], some 3⟩]
    ∧ load_issues_from_json bundleDoc = Except.error "invalid issue record" := by
  exact ⟨rfl, rfl⟩

/-- C10 counterexample: the source counts slashes on the raw string, without
stripping query parameters, so a URL whose query string holds slashes is
rejected although the spec's trimmed-count rule accepts it. -/
theorem is_gh_url_query_slashes_cx :
    is_gh_url "https://github.com/o/r?a=/b/c" = false
    ∧ is_repository_url_spec "https://github.com/o/r?a=/b/c" = true := by decide

/-- C10 amended: is_gh_url is true iff the string begins with the hosting base
URL and the count of slashes in the string as given (no stripping) is between
4 and 5 inclusive; it accepts the two example repository URLs and rejects the
other two. -/
theorem is_gh_url_amended :
    (∀ url : String, is_gh_url url = true ↔
        (GH_BASE_URL.data.isPrefixOf url.data = true
          ∧ 4 ≤ countChar '/' url ∧ countChar '/' url ≤ 5))
    ∧ is_gh_url "https://github.com/o/r" = true
    ∧ is_gh_url "https://github.com/o/r/" = true
    ∧ is_gh_url "https://github.com/o/r/extra/path" = false
    ∧ is_gh_url "https://example.com/o/r" = false := by
  refine ⟨?_, by decide, by decide, by decide, by decide⟩
  intro url
  simp [is_gh_url, Bool.and_eq_true, decide_eq_true_eq, and_assoc]

end GhIssueExporter
